import Mathlib

/-!
Shallow embedding of the typestate pushdown-automaton library
(`src/lib.rs` and its driver `src/bin/main.rs`).

The Rust library defines a `Machine<X>` parameterised by a zero-size
state tag `X`, carrying the transaction payload required by `X` and a
`StackStorage<TransactionItem>` service.  Transitions are provided per
(source, destination) pair:

* `TransitionFrom` : `Machine<Wait<Start>> -> Machine<Wait<Input>>` and
  `Machine<Wait<Input>> -> Machine<Finished>` (stack untouched);
* `PushdownFrom` : `Machine<Wait<Input>> -> Machine<Action<Print>>` and
  `Machine<Action<Print>> -> Machine<Action<Load>>` (the old payload is
  packed into the `TransactionItem` sum type and pushed);
* `PullupFrom` : the two inverses, which pop, unpack, and can fail with
  a `MachineError` carrying an `ErrorKind` and a cloned snapshot of the
  machine at the moment of failure.

`StackStorage` wraps a `Vec`; `push` appends at the end and `pop`
removes from the end, so the top of the stack is the LAST element of
the `tape` list below.
-/

namespace Automaton

/-- `transaction::Epsilon` — the empty transaction (a Rust unit struct). -/
inductive Epsilon : Type where
  | mk : Epsilon
deriving DecidableEq, Repr

/-- `transaction::PrintTransaction(pub &'static str)` — payload for printing states. -/
structure PrintTransaction : Type where
  text : String
deriving DecidableEq, Repr

/-- `transaction::TransactionItem` — the closed sum type over all transaction
variants, used so transactions of different static types share one stack. -/
inductive TransactionItem : Type where
  /-- Variant wrapping `Epsilon`. -/
  | Epsilon : Automaton.Epsilon → TransactionItem
  /-- Variant wrapping `PrintTransaction`. -/
  | Print : PrintTransaction → TransactionItem
deriving DecidableEq, Repr

/-- The Rust `Debug` rendering of a `TransactionItem`, used in error messages
(`format!("\x7b:?\x7d", e)` in the `TryFrom` impls). -/
def TransactionItem.debugFmt : TransactionItem → String
  | .Epsilon _ => "Epsilon(Epsilon)"
  | .Print p => "Print(PrintTransaction(\"" ++ p.text ++ "\"))"

/-- `function::error::RuntimeConstraintError` — expected/factual strings of a
failed runtime constraint. -/
structure RuntimeConstraintError : Type where
  expected : String
  factual : String
deriving DecidableEq, Repr

/-- `impl From<Epsilon> for TransactionItem` — total packing of `Epsilon`. -/
def Epsilon.into (x : Epsilon) : TransactionItem :=
  TransactionItem.Epsilon x

/-- `impl From<PrintTransaction> for TransactionItem` — total packing. -/
def PrintTransaction.into (x : PrintTransaction) : TransactionItem :=
  TransactionItem.Print x

/-- `impl TryFrom<TransactionItem> for Epsilon` — unpack, or report the
variant mismatch as a `RuntimeConstraintError`. -/
def Epsilon.try_from (tc : TransactionItem) : Except RuntimeConstraintError Epsilon :=
  match tc with
  | TransactionItem.Epsilon x => Except.ok x
  | e => Except.error ⟨"TransactionItem :: Epsilon", e.debugFmt⟩

/-- `impl TryFrom<TransactionItem> for PrintTransaction` — unpack, or report
the variant mismatch as a `RuntimeConstraintError`. -/
def PrintTransaction.try_from (tc : TransactionItem) : Except RuntimeConstraintError PrintTransaction :=
  match tc with
  | TransactionItem.Print x => Except.ok x
  | e => Except.error ⟨"TransactionItem :: Print", e.debugFmt⟩

/-- `service::error::StackPopError` — thrown when popping an empty stack. -/
inductive StackPopError : Type where
  | mk : StackPopError
deriving DecidableEq, Repr

/-- `service::StackStorage<TransactionItem>` — wraps a `Vec` (`tape`) to
provide a stack; the top of the stack is the last element of `tape`. -/
structure StackStorage : Type where
  tape : List TransactionItem
deriving DecidableEq, Repr

/-- `StackStorage::push` — `self.tape.push(t.into()); Ok(())`.  The Rust
return type is `Result<(), !>`, modelled as `Except Empty Unit`; the pair
returns the mutated storage explicitly. -/
def StackStorage.push (s : StackStorage) (t : TransactionItem) : Except Empty Unit × StackStorage :=
  (Except.ok (), ⟨s.tape ++ [t]⟩)

/-- `StackStorage::pop` — `self.tape.pop().ok_or(StackPopError)`.  `Vec::pop`
removes and returns the last element when there is one and leaves the vector
unchanged otherwise; the mutated storage is returned explicitly. -/
def StackStorage.pop (s : StackStorage) : Except StackPopError TransactionItem × StackStorage :=
  match s.tape.getLast? with
  | some a => (Except.ok a, ⟨s.tape.dropLast⟩)
  | none => (Except.error StackPopError.mk, s)

/-- `function::error::ErrorKind` — public classification of machine failures. -/
inductive ErrorKind : Type where
  /-- An operation failed to meet required constraints. -/
  | ConstraintError : ErrorKind
  /-- A logical error occurred. -/
  | LogicError : ErrorKind
deriving DecidableEq, Repr

/-- The state tags of the example automaton: `Wait<Start>`, `Wait<Input>`,
`Action<Print>`, `Action<Load>` and `Finished` — exactly the `TopLevel`
states a `Machine` can be tagged with. -/
inductive StateTag : Type where
  | waitStart : StateTag
  | waitInput : StateTag
  | actionPrint : StateTag
  | actionLoad : StateTag
  | finished : StateTag
deriving DecidableEq, Repr

/-- The `State::Transaction` associated type: the payload type each state
requires (`Start`, `Input`, `Load`, `Finished` use `Epsilon`; `Print` uses
`PrintTransaction`). -/
@[reducible]
def StateTag.Transaction : StateTag → Type
  | .waitStart => Epsilon
  | .waitInput => Epsilon
  | .actionPrint => PrintTransaction
  | .actionLoad => Epsilon
  | .finished => Epsilon

instance (X : StateTag) : DecidableEq X.Transaction := by
  cases X <;> (dsimp [StateTag.Transaction]; infer_instance)

/-- `Machine<X>` — the state machine value: the (zero-size) state is the type
index `X`, `transaction` is the payload required by `X`, and `storage` is the
stack-storage service. -/
structure Machine (X : StateTag) : Type where
  transaction : X.Transaction
  storage : StackStorage

instance (X : StateTag) : DecidableEq (Machine X) := by
  intro a b
  cases a
  cases b
  exact decidable_of_iff _ (iff_of_eq (Machine.mk.injEq _ _ _ _)).symm

/-- `function::error::MachineError` — a classified error carrying a cloned
snapshot of the machine at the moment of failure.  The Rust snapshot is a
`Box<Debug + Send + Sync>` holding the cloned machine; here it is the
machine together with its state tag. -/
structure MachineError : Type where
  machine : Sigma Machine
  kind : ErrorKind

/-- The stack tape recorded inside a `MachineError`'s machine snapshot. -/
def MachineError.snapshotTape (e : MachineError) : List TransactionItem :=
  e.machine.2.storage.tape

/-- `SnapshottedErrorExt::context` for `Result<T, E>` — `map_err` replacing
the failure with a `MachineError` wrapping the given kind and a clone of the
given machine; `Ok` values pass through untouched. -/
def Result.context {T E : Type} (r : Except E T) (kind : ErrorKind) {X : StateTag}
    (machine : Machine X) : Except MachineError T :=
  match r with
  | Except.ok v => Except.ok v
  | Except.error _ => Except.error ⟨⟨X, machine⟩, kind⟩

/-- The `Into<TransactionItem>` capability required of every transaction type
(`T: Transaction + Into<TC>`), satisfied by the two `From` impls. -/
class IntoTransactionItem (T : Type) : Type where
  into : T → TransactionItem

instance : IntoTransactionItem Epsilon :=
  ⟨Epsilon.into⟩

instance : IntoTransactionItem PrintTransaction :=
  ⟨PrintTransaction.into⟩

/-- The `TryInto<T>` capability of `TransactionItem` (`TC: TryInto<T>`),
satisfied by the two `TryFrom` impls. -/
class TryFromTransactionItem (T : Type) : Type where
  try_from : TransactionItem → Except RuntimeConstraintError T

instance : TryFromTransactionItem Epsilon :=
  ⟨Epsilon.try_from⟩

instance : TryFromTransactionItem PrintTransaction :=
  ⟨PrintTransaction.try_from⟩

/-- `function::helper::pack_transaction` — wrap a transaction into the
containing sum type; total (`x.into()`). -/
def pack_transaction {T : Type} [IntoTransactionItem T] (x : T) : TransactionItem :=
  IntoTransactionItem.into x

/-- `function::helper::unpack_transaction` — unwrap a stored transaction into
an owned value (`tc.try_into()`); fails on variant mismatch. -/
def unpack_transaction {T : Type} [TryFromTransactionItem T] (tc : TransactionItem) :
    Except RuntimeConstraintError T :=
  TryFromTransactionItem.try_from tc

/-- `impl TransitionFrom<Machine<Wait<Start>>> for Machine<Wait<Input>>` —
direct transition: new payload `t`, storage carried over untouched. -/
def transition_from_start_to_input (old : Machine .waitStart) (t : Epsilon) :
    Machine .waitInput :=
  { transaction := t, storage := old.storage }

/-- `impl TransitionFrom<Machine<Wait<Input>>> for Machine<Finished>` —
direct transition: new payload `t`, storage carried over untouched. -/
def transition_from_input_to_finished (old : Machine .waitInput) (t : Epsilon) :
    Machine .finished :=
  { transaction := t, storage := old.storage }

/-- `impl PushdownFrom<Machine<Wait<Input>>, TransactionItem> for
Machine<Action<Print>>` — pack the old machine's payload, push it, and build
the new machine with the caller's payload `t` and the mutated storage.  The
`.expect("Never type triggered!")` matches on the `Result<(), !>` of `push`,
whose error branch is uninhabited. -/
def pushdown_from_input_to_print (old : Machine .waitInput) (t : PrintTransaction) :
    Machine .actionPrint :=
  let old_transaction : TransactionItem := pack_transaction old.transaction
  let pushed := old.storage.push old_transaction
  match pushed.1 with
  | Except.ok _ => { transaction := t, storage := pushed.2 }
  | Except.error e => e.elim

/-- `impl PushdownFrom<Machine<Action<Print>>, TransactionItem> for
Machine<Action<Load>>` — same shape as the other pushdown. -/
def pushdown_from_print_to_load (old : Machine .actionPrint) (t : Epsilon) :
    Machine .actionLoad :=
  let old_transaction : TransactionItem := pack_transaction old.transaction
  let pushed := old.storage.push old_transaction
  match pushed.1 with
  | Except.ok _ => { transaction := t, storage := pushed.2 }
  | Except.error e => e.elim

/-- `impl PullupFrom<Machine<Action<Print>>, TransactionItem> for
Machine<Wait<Input>>` — `get_mut(&mut old).pop()` mutates `old` in place
(the pop happens before any snapshot is taken), the pop failure is annotated
`LogicError`, the unpack failure `ConstraintError`, each with a snapshot of
`old` at that moment; on success the new machine carries the unpacked
payload and `old`'s (popped) storage. -/
def pullup_from_print_to_input (old : Machine .actionPrint) :
    Except MachineError (Machine .waitInput) :=
  let popped := old.storage.pop
  let old : Machine .actionPrint := { old with storage := popped.2 }
  match Except.bind (Result.context popped.1 ErrorKind.LogicError old)
      (fun item =>
        Result.context (unpack_transaction item (T := Epsilon)) ErrorKind.ConstraintError old) with
  | Except.error e => Except.error e
  | Except.ok old_transaction =>
      Except.ok { transaction := old_transaction, storage := old.storage }

/-- `impl PullupFrom<Machine<Action<Load>>, TransactionItem> for
Machine<Action<Print>>` — same shape as the other pullup; the destination
`Action<Print>` statically expects a `PrintTransaction` payload. -/
def pullup_from_load_to_print (old : Machine .actionLoad) :
    Except MachineError (Machine .actionPrint) :=
  let popped := old.storage.pop
  let old : Machine .actionLoad := { old with storage := popped.2 }
  match Except.bind (Result.context popped.1 ErrorKind.LogicError old)
      (fun item =>
        Result.context (unpack_transaction item (T := PrintTransaction))
          ErrorKind.ConstraintError old) with
  | Except.error e => Except.error e
  | Except.ok old_transaction =>
      Except.ok { transaction := old_transaction, storage := old.storage }

/-- `main.rs::new_machine` — the factory: `Wait<Start>` state, `Epsilon`
payload, empty stack. -/
def new_machine : Machine .waitStart :=
  { transaction := Epsilon.mk, storage := ⟨[]⟩ }

end Automaton

namespace Automaton

/-! ### Computation lemmas for the stack and the transitions -/

theorem StackStorage.pop_concat (l : List TransactionItem) (a : TransactionItem) :
    StackStorage.pop ⟨l ++ [a]⟩ = (Except.ok a, ⟨l⟩) := by
  simp [StackStorage.pop, List.getLast?_concat]

theorem StackStorage.pop_nil :
    StackStorage.pop ⟨[]⟩ = (Except.error StackPopError.mk, ⟨[]⟩) := rfl

theorem pushdown_from_input_to_print_eq (m : Machine .waitInput) (t : PrintTransaction) :
    pushdown_from_input_to_print m t =
      ⟨t, ⟨m.storage.tape ++ [TransactionItem.Epsilon m.transaction]⟩⟩ := rfl

theorem pushdown_from_print_to_load_eq (m : Machine .actionPrint) (t : Epsilon) :
    pushdown_from_print_to_load m t =
      ⟨t, ⟨m.storage.tape ++ [TransactionItem.Print m.transaction]⟩⟩ := rfl

theorem pullup_print_to_input_concat_epsilon (tr : PrintTransaction)
    (l : List TransactionItem) (x : Epsilon) :
    pullup_from_print_to_input ⟨tr, ⟨l ++ [TransactionItem.Epsilon x]⟩⟩ =
      Except.ok ⟨x, ⟨l⟩⟩ := by
  simp [pullup_from_print_to_input, StackStorage.pop_concat, unpack_transaction,
    TryFromTransactionItem.try_from, Epsilon.try_from, Result.context, Except.bind]

theorem pullup_print_to_input_concat_print (tr : PrintTransaction)
    (l : List TransactionItem) (p : PrintTransaction) :
    pullup_from_print_to_input ⟨tr, ⟨l ++ [TransactionItem.Print p]⟩⟩ =
      Except.error ⟨⟨StateTag.actionPrint, ⟨tr, ⟨l⟩⟩⟩, ErrorKind.ConstraintError⟩ := by
  simp [pullup_from_print_to_input, StackStorage.pop_concat, unpack_transaction,
    TryFromTransactionItem.try_from, Epsilon.try_from, Result.context, Except.bind]

theorem pullup_print_to_input_nil (tr : PrintTransaction) :
    pullup_from_print_to_input ⟨tr, ⟨[]⟩⟩ =
      Except.error ⟨⟨StateTag.actionPrint, ⟨tr, ⟨[]⟩⟩⟩, ErrorKind.LogicError⟩ := rfl

theorem pullup_load_to_print_concat_print (tr : Epsilon)
    (l : List TransactionItem) (p : PrintTransaction) :
    pullup_from_load_to_print ⟨tr, ⟨l ++ [TransactionItem.Print p]⟩⟩ =
      Except.ok ⟨p, ⟨l⟩⟩ := by
  simp [pullup_from_load_to_print, StackStorage.pop_concat, unpack_transaction,
    TryFromTransactionItem.try_from, PrintTransaction.try_from, Result.context, Except.bind]

theorem pullup_load_to_print_concat_epsilon (tr : Epsilon)
    (l : List TransactionItem) (x : Epsilon) :
    pullup_from_load_to_print ⟨tr, ⟨l ++ [TransactionItem.Epsilon x]⟩⟩ =
      Except.error ⟨⟨StateTag.actionLoad, ⟨tr, ⟨l⟩⟩⟩, ErrorKind.ConstraintError⟩ := by
  simp [pullup_from_load_to_print, StackStorage.pop_concat, unpack_transaction,
    TryFromTransactionItem.try_from, PrintTransaction.try_from, Result.context, Except.bind]

theorem pullup_load_to_print_nil (tr : Epsilon) :
    pullup_from_load_to_print ⟨tr, ⟨[]⟩⟩ =
      Except.error ⟨⟨StateTag.actionLoad, ⟨tr, ⟨[]⟩⟩⟩, ErrorKind.LogicError⟩ := rfl

end Automaton

namespace Automaton

/-- C1: every legal chain of pushdowns (from `Wait<Input>`: one or two; from
`Action<Print>`: one — these are all the pushdown chains the library
implements) followed by the matching pullups succeeds, restores each archived
payload bit-for-bit, and returns the machine to its original payload and
stack contents. -/
theorem pairing_law :
    (∀ (m : Machine .waitInput) (t : PrintTransaction),
      pullup_from_print_to_input (pushdown_from_input_to_print m t) = Except.ok m) ∧
    (∀ (m : Machine .actionPrint) (t : Epsilon),
      pullup_from_load_to_print (pushdown_from_print_to_load m t) = Except.ok m) ∧
    (∀ (m : Machine .waitInput) (t1 : PrintTransaction) (t2 : Epsilon),
      pullup_from_load_to_print
          (pushdown_from_print_to_load (pushdown_from_input_to_print m t1) t2) =
        Except.ok (pushdown_from_input_to_print m t1) ∧
      Except.bind
          (pullup_from_load_to_print
            (pushdown_from_print_to_load (pushdown_from_input_to_print m t1) t2))
          pullup_from_print_to_input = Except.ok m) := by
  refine ⟨?_, ?_, ?_⟩
  · intro m t
    obtain ⟨tr, tape⟩ := m
    cases tr
    rw [pushdown_from_input_to_print_eq]
    exact pullup_print_to_input_concat_epsilon t tape.tape Epsilon.mk
  · intro m t
    obtain ⟨tr, tape⟩ := m
    rw [pushdown_from_print_to_load_eq]
    exact pullup_load_to_print_concat_print t tape.tape tr
  · intro m t1 t2
    obtain ⟨tr, tape⟩ := m
    cases tr
    constructor
    · rw [pushdown_from_print_to_load_eq]
      exact pullup_load_to_print_concat_print t2 _ _
    · rw [pushdown_from_print_to_load_eq]
      rw [pullup_load_to_print_concat_print t2 _ _]
      show pullup_from_print_to_input (pushdown_from_input_to_print ⟨Epsilon.mk, tape⟩ t1) = _
      rw [pushdown_from_input_to_print_eq]
      exact pullup_print_to_input_concat_epsilon t1 tape.tape Epsilon.mk

end Automaton

namespace Automaton

/-- C2: pulling up from an Actionable-wrapped state with empty stack storage
yields a `LogicError`-classified `MachineError` (for both pullup impls);
being a total function of type `Except`, it neither panics nor produces a
machine with a default payload. -/
theorem empty_pop_law :
    (∀ (m : Machine .actionPrint), m.storage.tape = [] →
      ∃ e : MachineError, pullup_from_print_to_input m = Except.error e ∧
        e.kind = ErrorKind.LogicError) ∧
    (∀ (m : Machine .actionLoad), m.storage.tape = [] →
      ∃ e : MachineError, pullup_from_load_to_print m = Except.error e ∧
        e.kind = ErrorKind.LogicError) := by
  constructor
  · intro m h
    obtain ⟨tr, ⟨tape⟩⟩ := m
    simp only at h
    subst h
    exact ⟨_, pullup_print_to_input_nil tr, rfl⟩
  · intro m h
    obtain ⟨tr, ⟨tape⟩⟩ := m
    simp only at h
    subst h
    exact ⟨_, pullup_load_to_print_nil tr, rfl⟩

/-- Witness for `empty_pop_law` at concrete machines with empty stacks. -/
theorem empty_pop_law_witness :
    (∃ e : MachineError,
      pullup_from_print_to_input ⟨⟨"w"⟩, ⟨[]⟩⟩ = Except.error e ∧
        e.kind = ErrorKind.LogicError) ∧
    (∃ e : MachineError,
      pullup_from_load_to_print ⟨Epsilon.mk, ⟨[]⟩⟩ = Except.error e ∧
        e.kind = ErrorKind.LogicError) :=
  ⟨empty_pop_law.1 ⟨⟨"w"⟩, ⟨[]⟩⟩ rfl, empty_pop_law.2 ⟨Epsilon.mk, ⟨[]⟩⟩ rfl⟩

/-- C3: pulling up when the top of the (non-empty) stack holds a variant
other than the one statically required by the destination state yields a
`ConstraintError`-classified `MachineError`: `Wait<Input>` requires the
`Epsilon` variant, `Action<Print>` requires the `Print` variant. -/
theorem type_mismatch_law :
    (∀ (m : Machine .actionPrint) (l : List TransactionItem) (p : PrintTransaction),
      m.storage.tape = l ++ [TransactionItem.Print p] →
      ∃ e : MachineError, pullup_from_print_to_input m = Except.error e ∧
        e.kind = ErrorKind.ConstraintError) ∧
    (∀ (m : Machine .actionLoad) (l : List TransactionItem) (x : Epsilon),
      m.storage.tape = l ++ [TransactionItem.Epsilon x] →
      ∃ e : MachineError, pullup_from_load_to_print m = Except.error e ∧
        e.kind = ErrorKind.ConstraintError) := by
  constructor
  · intro m l p h
    obtain ⟨tr, ⟨tape⟩⟩ := m
    simp only at h
    subst h
    exact ⟨_, pullup_print_to_input_concat_print tr l p, rfl⟩
  · intro m l x h
    obtain ⟨tr, ⟨tape⟩⟩ := m
    simp only at h
    subst h
    exact ⟨_, pullup_load_to_print_concat_epsilon tr l x, rfl⟩

/-- Witness for `type_mismatch_law`: pulling up from `Action<Load>` towards
`Action<Print>` with `Epsilon` on top, and from `Action<Print>` towards
`Wait<Input>` with `Print` on top. -/
theorem type_mismatch_law_witness :
    (∃ e : MachineError,
      pullup_from_print_to_input ⟨⟨"w"⟩, ⟨[TransactionItem.Print ⟨"x"⟩]⟩⟩ =
        Except.error e ∧ e.kind = ErrorKind.ConstraintError) ∧
    (∃ e : MachineError,
      pullup_from_load_to_print ⟨Epsilon.mk, ⟨[TransactionItem.Epsilon Epsilon.mk]⟩⟩ =
        Except.error e ∧ e.kind = ErrorKind.ConstraintError) :=
  ⟨type_mismatch_law.1 ⟨⟨"w"⟩, ⟨[TransactionItem.Print ⟨"x"⟩]⟩⟩ [] ⟨"x"⟩ rfl,
   type_mismatch_law.2 ⟨Epsilon.mk, ⟨[TransactionItem.Epsilon Epsilon.mk]⟩⟩ []
     Epsilon.mk rfl⟩

end Automaton

namespace Automaton

/-- C4: every pushdown grows the stack by exactly one, the newly pushed top
element is the source machine's own packed payload, and the new machine's
payload is the caller-supplied one; the only two-pushdown chain the library
implements grows the stack by exactly two. -/
theorem stack_depth_law :
    (∀ (m : Machine .waitInput) (t : PrintTransaction),
      (pushdown_from_input_to_print m t).storage.tape.length =
          m.storage.tape.length + 1 ∧
        (pushdown_from_input_to_print m t).storage.tape.getLast? =
          some (pack_transaction m.transaction) ∧
        (pushdown_from_input_to_print m t).transaction = t) ∧
    (∀ (m : Machine .actionPrint) (t : Epsilon),
      (pushdown_from_print_to_load m t).storage.tape.length =
          m.storage.tape.length + 1 ∧
        (pushdown_from_print_to_load m t).storage.tape.getLast? =
          some (pack_transaction m.transaction) ∧
        (pushdown_from_print_to_load m t).transaction = t) ∧
    (∀ (m : Machine .waitInput) (t1 : PrintTransaction) (t2 : Epsilon),
      (pushdown_from_print_to_load (pushdown_from_input_to_print m t1) t2).storage.tape.length = m.storage.tape.length + 2) := by
  refine ⟨?_, ?_, ?_⟩
  · intro m t
    rw [pushdown_from_input_to_print_eq]
    exact ⟨by simp, List.getLast?_concat _, rfl⟩
  · intro m t
    rw [pushdown_from_print_to_load_eq]
    exact ⟨by simp, List.getLast?_concat _, rfl⟩
  · intro m t1 t2
    rw [pushdown_from_input_to_print_eq, pushdown_from_print_to_load_eq]
    simp

/-- C5: the two direct transitions (`Wait<Start>` to `Wait<Input>` and
`Wait<Input>` to `Finished`) carry the stack storage over untouched, for
every machine and payload. -/
theorem direct_transition_purity :
    (∀ (m : Machine .waitStart) (t : Epsilon),
      (transition_from_start_to_input m t).storage = m.storage) ∧
    (∀ (m : Machine .waitInput) (t : Epsilon),
      (transition_from_input_to_finished m t).storage = m.storage) :=
  ⟨fun _ _ => rfl, fun _ _ => rfl⟩

/-- C6: packing into `TransactionItem` is total, `StackStorage::push` always
returns `Ok(())` (its error type is uninhabited), and consequently both
pushdowns and both direct transitions are total functions computing an
explicit machine — no error or panic branch is reachable; only pullup
returns a fallible `Except`. -/
theorem pushdown_transition_infallible :
    (∀ (s : StackStorage) (t : TransactionItem), (s.push t).1 = Except.ok ()) ∧
    (∀ (x : Epsilon), pack_transaction x = TransactionItem.Epsilon x) ∧
    (∀ (p : PrintTransaction), pack_transaction p = TransactionItem.Print p) ∧
    (∀ (m : Machine .waitInput) (t : PrintTransaction),
      pushdown_from_input_to_print m t =
        ⟨t, ⟨m.storage.tape ++ [pack_transaction m.transaction]⟩⟩) ∧
    (∀ (m : Machine .actionPrint) (t : Epsilon),
      pushdown_from_print_to_load m t =
        ⟨t, ⟨m.storage.tape ++ [pack_transaction m.transaction]⟩⟩) ∧
    (∀ (m : Machine .waitStart) (t : Epsilon),
      transition_from_start_to_input m t = ⟨t, m.storage⟩) ∧
    (∀ (m : Machine .waitInput) (t : Epsilon),
      transition_from_input_to_finished m t = ⟨t, m.storage⟩) :=
  ⟨fun _ _ => rfl, fun _ => rfl, fun _ => rfl, fun _ _ => rfl, fun _ _ => rfl,
   fun _ _ => rfl, fun _ _ => rfl⟩

end Automaton

namespace Automaton

/-- C7: the driver scenario of `main.rs` — starting from the factory machine
(`Wait<Start>`, empty stack), transition to `Wait<Input>`, pushdown with
`PrintTransaction("Hello")`, pushdown with `Epsilon`, then two pullups and a
final transition to `Finished` — takes exactly the intermediate stacks
`[Epsilon]`, `[Epsilon, Print("Hello")]`, every pullup succeeds (the first
restoring `Print("Hello")`), and the final stack is empty. -/
theorem scenario_main :
    new_machine.storage.tape = [] ∧
    (transition_from_start_to_input new_machine Epsilon.mk).storage.tape = [] ∧
    pushdown_from_input_to_print (transition_from_start_to_input new_machine Epsilon.mk)
        ⟨"Hello"⟩ = ⟨⟨"Hello"⟩, ⟨[TransactionItem.Epsilon Epsilon.mk]⟩⟩ ∧
    pushdown_from_print_to_load ⟨⟨"Hello"⟩, ⟨[TransactionItem.Epsilon Epsilon.mk]⟩⟩
        Epsilon.mk =
      ⟨Epsilon.mk,
        ⟨[TransactionItem.Epsilon Epsilon.mk, TransactionItem.Print ⟨"Hello"⟩]⟩⟩ ∧
    pullup_from_load_to_print
        ⟨Epsilon.mk,
          ⟨[TransactionItem.Epsilon Epsilon.mk, TransactionItem.Print ⟨"Hello"⟩]⟩⟩ =
      Except.ok ⟨⟨"Hello"⟩, ⟨[TransactionItem.Epsilon Epsilon.mk]⟩⟩ ∧
    pullup_from_print_to_input ⟨⟨"Hello"⟩, ⟨[TransactionItem.Epsilon Epsilon.mk]⟩⟩ =
      Except.ok ⟨Epsilon.mk, ⟨[]⟩⟩ ∧
    (transition_from_input_to_finished ⟨Epsilon.mk, ⟨[]⟩⟩ Epsilon.mk).storage.tape = [] :=
  ⟨rfl, rfl, rfl, rfl, rfl, rfl, rfl⟩

/-- C8: annotating a fallible result with an error kind and a machine
snapshot (`SnapshottedErrorExt::context`) never changes the branch taken —
the result is `Ok v` exactly when the input was `Ok v`, and an error exactly
when the input was an error. -/
theorem context_preserves_branch (T E : Type) (r : Except E T) (k : ErrorKind)
    (X : StateTag) (m : Machine X) :
    (∀ v : T, Result.context r k m = Except.ok v ↔ r = Except.ok v) ∧
    ((∃ me : MachineError, Result.context r k m = Except.error me) ↔
      (∃ e : E, r = Except.error e)) := by
  cases r <;> simp [Result.context]

/-- C9: every pushdown appends exactly one element (the packed source
payload) at the top of the stack and keeps all previously stored elements
unchanged, in value and relative order, below it. -/
theorem pushdown_frame :
    (∀ (m : Machine .waitInput) (t : PrintTransaction),
      (pushdown_from_input_to_print m t).storage.tape =
        m.storage.tape ++ [pack_transaction m.transaction]) ∧
    (∀ (m : Machine .actionPrint) (t : Epsilon),
      (pushdown_from_print_to_load m t).storage.tape =
        m.storage.tape ++ [pack_transaction m.transaction]) :=
  ⟨fun _ _ => rfl, fun _ _ => rfl⟩

end Automaton

namespace Automaton

/-- C10: in the Rust pullup the pop mutates the machine BEFORE the snapshot
is taken, so a `ConstraintError` (variant-mismatch) failure carries a
snapshot whose stack is exactly one element shorter than the input's — the
mismatched popped value is in no stack and no machine is returned — while a
`LogicError` (empty-stack) failure carries a snapshot whose stack is the
unchanged (empty) input stack. -/
theorem pullup_failure_snapshot :
    (∀ (m : Machine .actionLoad) (l : List TransactionItem) (x : Epsilon),
      m.storage.tape = l ++ [TransactionItem.Epsilon x] →
      pullup_from_load_to_print m =
          Except.error
            ⟨⟨StateTag.actionLoad, ⟨m.transaction, ⟨l⟩⟩⟩, ErrorKind.ConstraintError⟩ ∧
        l.length + 1 = m.storage.tape.length) ∧
    (∀ (m : Machine .actionPrint) (l : List TransactionItem) (p : PrintTransaction),
      m.storage.tape = l ++ [TransactionItem.Print p] →
      pullup_from_print_to_input m =
          Except.error
            ⟨⟨StateTag.actionPrint, ⟨m.transaction, ⟨l⟩⟩⟩, ErrorKind.ConstraintError⟩ ∧
        l.length + 1 = m.storage.tape.length) ∧
    (∀ (m : Machine .actionPrint), m.storage.tape = [] →
      pullup_from_print_to_input m =
        Except.error ⟨⟨StateTag.actionPrint, m⟩, ErrorKind.LogicError⟩) ∧
    (∀ (m : Machine .actionLoad), m.storage.tape = [] →
      pullup_from_load_to_print m =
        Except.error ⟨⟨StateTag.actionLoad, m⟩, ErrorKind.LogicError⟩) := by
  refine ⟨?_, ?_, ?_, ?_⟩
  · intro m l x h
    obtain ⟨tr, ⟨tape⟩⟩ := m
    simp only at h ⊢
    subst h
    exact ⟨pullup_load_to_print_concat_epsilon tr l x, by simp⟩
  · intro m l p h
    obtain ⟨tr, ⟨tape⟩⟩ := m
    simp only at h ⊢
    subst h
    exact ⟨pullup_print_to_input_concat_print tr l p, by simp⟩
  · intro m h
    obtain ⟨tr, ⟨tape⟩⟩ := m
    simp only at h
    subst h
    exact pullup_print_to_input_nil tr
  · intro m h
    obtain ⟨tr, ⟨tape⟩⟩ := m
    simp only at h
    subst h
    exact pullup_load_to_print_nil tr

/-- Witness for `pullup_failure_snapshot` at concrete machines: a mismatch
over a two-element stack (snapshot keeps one element) and an empty-stack
failure (snapshot stack stays empty). -/
theorem pullup_failure_snapshot_witness :
    (pullup_from_load_to_print
        ⟨Epsilon.mk,
          ⟨[TransactionItem.Print ⟨"lo"⟩, TransactionItem.Epsilon Epsilon.mk]⟩⟩ =
        Except.error
          ⟨⟨StateTag.actionLoad,
              ⟨Epsilon.mk, ⟨[TransactionItem.Print ⟨"lo"⟩]⟩⟩⟩,
            ErrorKind.ConstraintError⟩ ∧
      ([TransactionItem.Print ⟨"lo"⟩] : List TransactionItem).length + 1 = 2) ∧
    pullup_from_print_to_input ⟨⟨"w"⟩, ⟨[]⟩⟩ =
      Except.error ⟨⟨StateTag.actionPrint, ⟨⟨"w"⟩, ⟨[]⟩⟩⟩, ErrorKind.LogicError⟩ :=
  ⟨pullup_failure_snapshot.1
      ⟨Epsilon.mk, ⟨[TransactionItem.Print ⟨"lo"⟩, TransactionItem.Epsilon Epsilon.mk]⟩⟩
      [TransactionItem.Print ⟨"lo"⟩] Epsilon.mk rfl,
    pullup_failure_snapshot.2.2.1 ⟨⟨"w"⟩, ⟨[]⟩⟩ rfl⟩

end Automaton
